import Mathlib

/-!
Verification of the wgpu-compute-tutorials getting-started program
(src/getting-started/src/main.rs).

The program is a one-shot GPU compute demo: it builds a hardcoded input
vector `(0..1028).map(|x| x as f32)`, uploads it to a storage buffer,
runs a WGSL kernel `y.data[gidx] = cos(x.data[gidx])` with one
workgroup (of size (1,1,1)) per input element, maps the output buffer
back and prints the first five results, the five expected cosines of
0..5, and the result length.

The embedding is generic over the scalar type: a `FloatModel α` supplies
the device cosine function and the `as f32` cast from naturals. The
numeric claims are settled with the real-number instantiation
(`Real.cos`); structural claims hold for every model and their witnesses
use an executable rational instantiation.
-/

namespace WgpuTutorial

/-- Scalar model for the 32-bit floats of the program: the device `cos`
function and the `as f32` cast applied to integer literals/counters. -/
structure FloatModel (α : Type) where
  cos : α → α
  ofNat : Nat → α

/-- Rust `as u32` cast of a `usize` value (`x.len() as u32`, line 50). -/
def asU32 (n : Nat) : Nat := n % 2 ^ 32

/-- Rust `as _`(= `u64`/`BufferAddress`) cast of the byte size
(`(x.len() * std::mem::size_of::<f32>()) as _`, line 62). -/
def asU64 (n : Nat) : Nat := n % 2 ^ 64

/-- Bytes per element: `std::mem::size_of::<f32>()`. -/
def f32Size : Nat := 4

/-- Host input (line 29): `let x: Vec<f32> = (0..1028).map(|x| x as f32).collect();`. -/
def hostInput (M : FloatModel α) : List α :=
  (List.range 1028).map M.ofNat

/-- Dispatch grid (line 50):
`let (x_workgroups, y_workgroups, z_workgroups) = (x.len() as u32, 1, 1);`. -/
def xWorkgroups (xLen : Nat) : Nat := asU32 xLen

/-- Workgroup size declared by the shader: `workgroup_size(1, 1, 1)` (line 43). -/
def workgroupSize : Nat × Nat × Nat := (1, 1, 1)

/-- Access mode of a storage binding in the WGSL shader. -/
inductive AccessMode where
  | read : AccessMode
  | write : AccessMode
deriving DecidableEq

/-- Binding 0 of the shader (lines 37–38): `var<storage, read> x: Array;`. -/
def xBindingAccess : AccessMode := AccessMode.read

/-- Binding 1 of the shader (lines 40–41): `var<storage, write> y: Array;`. -/
def yBindingAccess : AccessMode := AccessMode.write

/-- Buffer usage flags of a created buffer (the subset used by the program). -/
structure BufferUsages where
  storage : Bool
  mapRead : Bool
deriving DecidableEq

/-- Usage of the input buffer (line 57): `usage: wgpu::BufferUsages::STORAGE`. -/
def xBufferUsage : BufferUsages := { storage := true, mapRead := false }

/-- Usage of the output buffer (line 64):
`usage: wgpu::BufferUsages::STORAGE | wgpu::BufferUsages::MAP_READ`. -/
def yBufferUsage : BufferUsages := { storage := true, mapRead := true }

/-- Size in bytes of the output buffer (line 62):
`size: (x.len() * std::mem::size_of::<f32>()) as _`. -/
def yBufferSize (xLen : Nat) : Nat := asU64 (xLen * f32Size)

/-- Device-resident storage: the two buffers bound at group 0,
bindings 0 (`x`) and 1 (`y`), viewed as lists of scalars. -/
structure GpuMemory (α : Type) where
  x : List α
  y : List α

/-- One shader invocation (lines 44–47): given the global invocation id
`gidx`, execute `y.data[gidx] = cos(x.data[gidx]);`.  The write uses
`List.set`, which leaves the buffer unchanged when `gidx` is out of
bounds; the read defaults to `ofNat 0` out of bounds (the program only
ever dispatches in-bounds indices, so the defaults are never exercised). -/
def invocation (M : FloatModel α) (gidx : Nat) (mem : GpuMemory α) : GpuMemory α :=
  { mem with y := mem.y.set gidx (M.cos (mem.x.getD gidx (M.ofNat 0))) }

/-- The dispatched grid (line 103): `cpass.dispatch(x_workgroups, 1, 1)` with
`workgroup_size(1,1,1)` runs one invocation for each global id
`0 ≤ gidx < nx`. -/
def dispatchKernel (M : FloatModel α) (nx : Nat) (mem : GpuMemory α) : GpuMemory α :=
  (List.range nx).foldl (fun m g => invocation M g m) mem

/-- Record of one encoded compute pass (lines 97–104): whether
`set_pipeline` was called, the slot of `set_bind_group`, and the list of
dispatched grids. -/
structure ComputePassRecord where
  pipelineSet : Bool
  bindGroupSlot : Nat
  dispatches : List (Nat × Nat × Nat)
deriving DecidableEq

/-- The command encoder records exactly one compute pass that binds the
pipeline, binds the single bind group at slot 0, and dispatches
`(x_workgroups, y_workgroups, z_workgroups)` once (lines 94–104). -/
def encodedPasses (xLen : Nat) : List ComputePassRecord :=
  [{ pipelineSet := true
     bindGroupSlot := 0
     dispatches := [(xWorkgroups xLen, 1, 1)] }]

/-- The single submission (line 105): `queue.submit(Some(encoder.finish()));`
submits one command buffer holding the encoded passes. -/
def submission (xLen : Nat) : List (List ComputePassRecord) :=
  [encodedPasses xLen]

/-- Result vector read back from the output buffer, starting from an
arbitrary initial content `yInit` of the freshly created (unmapped)
output buffer: run the dispatch and reinterpret the mapped bytes as f32
(lines 109–117). -/
def runPipelineFrom (M : FloatModel α) (xIn yInit : List α) : List α :=
  (dispatchKernel M (xWorkgroups xIn.length) { x := xIn, y := yInit }).y

/-- Result vector of one program run: the output buffer is allocated
with `yBufferSize` bytes (hence `yBufferSize / 4` f32 cells, zero-filled
as wgpu zero-initializes fresh buffers), the kernel is dispatched, and
the whole buffer is read back. -/
def runPipeline (M : FloatModel α) (xIn : List α) : List α :=
  runPipelineFrom M xIn (List.replicate (yBufferSize xIn.length / f32Size) (M.ofNat 0))

/-- Rust slice indexing `&l[lo..hi]`: panics (`none`) unless
`lo ≤ hi ≤ l.len()`. -/
def sliceRange (l : List α) (lo hi : Nat) : Option (List α) :=
  if lo ≤ hi ∧ hi ≤ l.length then some ((l.drop lo).take (hi - lo)) else none

/-- Expected-result vector (line 121):
`let expected_result: Vec<f32> = (0..5).map(|x| f32::cos(x as _)).collect();`. -/
def expectedResult (M : FloatModel α) : List α :=
  (List.range 5).map (fun n => M.cos (M.ofNat n))

/-- One line of the program's standard output. -/
inductive OutputLine (α : Type) where
  | resultLine : List α → OutputLine α
  | expectedLine : List α → OutputLine α
  | lengthLine : Nat → OutputLine α
deriving DecidableEq

/-- The final printing (lines 121–125): slice `&result[0..5]` (panicking
when the result is shorter than 5, signalled by `none`), then print the
three lines. -/
def report (M : FloatModel α) (result : List α) : Option (List (OutputLine α)) :=
  match sliceRange result 0 5 with
  | none => none
  | some firstFive =>
      some [OutputLine.resultLine firstFive,
            OutputLine.expectedLine (expectedResult M),
            OutputLine.lengthLine result.length]

/-- Environment outcomes of the three fallible wgpu calls. -/
structure GpuEnv where
  adapterAvailable : Bool
  deviceCreationOk : Bool
  mappingOk : Bool

/-- Environment in which all three wgpu calls succeed. -/
def okEnv : GpuEnv := { adapterAvailable := true, deviceCreationOk := true, mappingOk := true }

/-- Observable outcome of one program run: a panic with its diagnostic
message, or success with the printed lines. -/
inductive RunOutcome (α : Type) where
  | panic : String → RunOutcome α
  | success : List (OutputLine α) → RunOutcome α
deriving DecidableEq

/-- Panic message of `request_adapter(..).await.expect(..)` (line 17). -/
def noAdapterMsg : String := "No GPU Found for referenced preference"

/-- Panic message of `request_device(..).await.expect(..)` (line 24). -/
def noDeviceMsg : String := "Could not create adapter for GPU device"

/-- Panic message of `buffer_future.await.expect(..)` (line 114). -/
def mapFailMsg : String := "failed to run compute on gpu!"

/-- Representative message of the index-out-of-range panic raised by
`&result[0..5]` (line 123) when the result holds fewer than 5 elements
(the runtime message also mentions the concrete slice length). -/
def sliceOutOfRangeMsg : String := "range end index 5 out of range"

/-- The whole of `async_main` (lines 8–126) as a function of the scalar
model, the environment of the three fallible wgpu calls, and the input
vector: each `expect` panics with its message when its call fails,
otherwise the pipeline runs and the three lines are printed (panicking
at the slice when the result is shorter than 5). -/
def asyncMain (M : FloatModel α) (env : GpuEnv) (xIn : List α) : RunOutcome α :=
  if env.adapterAvailable = false then RunOutcome.panic noAdapterMsg
  else if env.deviceCreationOk = false then RunOutcome.panic noDeviceMsg
  else if env.mappingOk = false then RunOutcome.panic mapFailMsg
  else
    match report M (runPipeline M xIn) with
    | some lines => RunOutcome.success lines
    | none => RunOutcome.panic sliceOutOfRangeMsg

/-- Executable instantiation used to evaluate the structural claims on
concrete inputs (its `cos` is irrelevant to those claims and is taken to
be the identity). -/
def ratModel : FloatModel ℚ := { cos := fun q => q, ofNat := fun n => (n : ℚ) }

/-- Real-number instantiation: f32 values modelled as reals, the device
cosine as the exact `Real.cos`. -/
noncomputable def realModel : FloatModel ℝ := { cos := Real.cos, ofNat := fun n => (n : ℝ) }

/- ### Basic lemmas about the dispatch -/

theorem dispatchKernel_zero (M : FloatModel α) (mem : GpuMemory α) :
    dispatchKernel M 0 mem = mem := rfl

theorem dispatchKernel_succ (M : FloatModel α) (n : Nat) (mem : GpuMemory α) :
    dispatchKernel M (n + 1) mem = invocation M n (dispatchKernel M n mem) := by
  unfold dispatchKernel
  rw [List.range_succ, List.foldl_append]
  rfl

theorem dispatchKernel_x (M : FloatModel α) (nx : Nat) (mem : GpuMemory α) :
    (dispatchKernel M nx mem).x = mem.x := by
  induction nx with
  | zero => rfl
  | succ n ih => rw [dispatchKernel_succ]; simpa [invocation] using ih

theorem dispatchKernel_y_length (M : FloatModel α) (nx : Nat) (mem : GpuMemory α) :
    (dispatchKernel M nx mem).y.length = mem.y.length := by
  induction nx with
  | zero => rfl
  | succ n ih => rw [dispatchKernel_succ]; simpa [invocation] using ih

theorem dispatchKernel_y_getElem? (M : FloatModel α) (nx i : Nat) (mem : GpuMemory α)
    (hi : i < nx) (hy : i < mem.y.length) :
    (dispatchKernel M nx mem).y[i]? = some (M.cos (mem.x.getD i (M.ofNat 0))) := by
  induction nx with
  | zero => omega
  | succ n ih =>
    rw [dispatchKernel_succ]
    by_cases h : i < n
    · have hne : n ≠ i := by omega
      simpa [invocation, List.getElem?_set_ne hne] using ih h
    · have hei : i = n := by omega
      subst hei
      have hlen : i < (dispatchKernel M i mem).y.length := by
        rw [dispatchKernel_y_length]; exact hy
      simp [invocation, List.getElem?_set_self hlen, dispatchKernel_x]

theorem dispatchKernel_y_getElem?_untouched (M : FloatModel α) (nx i : Nat)
    (mem : GpuMemory α) (hi : nx ≤ i) :
    (dispatchKernel M nx mem).y[i]? = mem.y[i]? := by
  induction nx with
  | zero => rfl
  | succ n ih =>
    rw [dispatchKernel_succ]
    have hne : n ≠ i := by omega
    have := ih (by omega)
    simpa [invocation, List.getElem?_set_ne hne] using this

theorem runPipeline_length (M : FloatModel α) (xIn : List α) :
    (runPipeline M xIn).length = yBufferSize xIn.length / f32Size := by
  unfold runPipeline runPipelineFrom
  rw [dispatchKernel_y_length]
  simp

theorem runPipeline_getElem? (M : FloatModel α) (xIn : List α) (i : Nat)
    (hx : i < xIn.length) (hlen : xIn.length < 2 ^ 32) :
    (runPipeline M xIn)[i]? = some (M.cos (xIn.getD i (M.ofNat 0))) := by
  unfold runPipeline runPipelineFrom
  have hnx : xWorkgroups xIn.length = xIn.length := Nat.mod_eq_of_lt hlen
  have hbytes : xIn.length * f32Size < 2 ^ 64 := by
    have h4 : f32Size = 4 := rfl
    rw [h4]; omega
  have hsize : yBufferSize xIn.length / f32Size = xIn.length := by
    unfold yBufferSize asU64
    rw [Nat.mod_eq_of_lt hbytes]
    exact Nat.mul_div_cancel xIn.length (by norm_num [f32Size])
  rw [hnx, dispatchKernel_y_getElem? M xIn.length i _ hx (by simpa [hsize] using hx)]

theorem runPipeline_length_eq (M : FloatModel α) (xIn : List α)
    (h : xIn.length * f32Size < 2 ^ 64) :
    (runPipeline M xIn).length = xIn.length := by
  rw [runPipeline_length]
  unfold yBufferSize asU64
  rw [Nat.mod_eq_of_lt h]
  exact Nat.mul_div_cancel xIn.length (by norm_num [f32Size])

theorem report_eq (M : FloatModel α) (r : List α) :
    report M r =
      if 5 ≤ r.length then
        some [OutputLine.resultLine (r.take 5),
              OutputLine.expectedLine (expectedResult M),
              OutputLine.lengthLine r.length]
      else none := by
  by_cases h : 5 ≤ r.length
  · simp [report, sliceRange, h]
  · simp [report, sliceRange, h]

theorem hostInput_length (M : FloatModel α) : (hostInput M).length = 1028 := by
  simp [hostInput]

theorem hostInput_getElem? (M : FloatModel α) (i : Nat) (hi : i < 1028) :
    (hostInput M)[i]? = some (M.ofNat i) := by
  simp [hostInput, List.getElem?_map, List.getElem?_range hi]

theorem hostInput_getD (M : FloatModel α) (i : Nat) (d : α) (hi : i < 1028) :
    (hostInput M).getD i d = M.ofNat i := by
  rw [List.getD_eq_getElem?_getD, hostInput_getElem? M i hi]
  rfl

/- ### Claim theorems -/

/-- C1: for every index i into the program's input vector, the i-th
element of the result vector read back from the output buffer equals the
cosine of input[i] within absolute error 1e-5 (in the real-number model
of the kernel assignment `y.data[gidx] = cos(x.data[gidx])`, where the
device cosine is exact, the error is 0). -/
theorem c1_output_is_cos_within_tolerance (i : Nat) (hi : i < 1028) :
    |(runPipeline realModel (hostInput realModel)).getD i 0 -
      Real.cos ((hostInput realModel).getD i 0)| < 1 / 100000 := by
  have hx : i < (hostInput realModel).length := by
    rw [hostInput_length]; exact hi
  have hlen : (hostInput realModel).length < 2 ^ 32 := by
    rw [hostInput_length]; norm_num
  have h := runPipeline_getElem? realModel (hostInput realModel) i hx hlen
  have hz : realModel.ofNat 0 = (0 : ℝ) := by simp [realModel]
  rw [List.getD_eq_getElem?_getD, h, hz]
  have hcos : realModel.cos = Real.cos := rfl
  rw [hcos]
  simp

/-- Witness for C1: the theorem applied at the concrete index 7. -/
theorem c1_output_is_cos_within_tolerance_witness :
    7 < 1028 ∧
      |(runPipeline realModel (hostInput realModel)).getD 7 0 -
        Real.cos ((hostInput realModel).getD 7 0)| < 1 / 100000 :=
  ⟨by norm_num, c1_output_is_cos_within_tolerance 7 (by norm_num)⟩

/-- C2: for every input sequence of length N (with N * 4 representable
in a u64, as it always is for a Rust `Vec<f32>`), the output buffer is
allocated with exactly N * size_of f32 = N * 4 bytes, and the result
vector obtained by mapping the whole buffer and reinterpreting its bytes
as f32 has length exactly N. -/
theorem c2_buffer_size_and_result_length (M : FloatModel α) (xIn : List α)
    (h : xIn.length * f32Size < 2 ^ 64) :
    yBufferSize xIn.length = xIn.length * f32Size ∧
      (runPipeline M xIn).length = xIn.length := by
  constructor
  · unfold yBufferSize asU64
    exact Nat.mod_eq_of_lt h
  · exact runPipeline_length_eq M xIn h

/-- Witness for C2: the theorem applied to the concrete input [1, 2, 3]. -/
theorem c2_buffer_size_and_result_length_witness :
    [(1 : ℚ), 2, 3].length * f32Size < 2 ^ 64 ∧
      (yBufferSize [(1 : ℚ), 2, 3].length = [(1 : ℚ), 2, 3].length * f32Size ∧
        (runPipeline ratModel [(1 : ℚ), 2, 3]).length = [(1 : ℚ), 2, 3].length) :=
  ⟨by norm_num [f32Size],
   c2_buffer_size_and_result_length ratModel [(1 : ℚ), 2, 3] (by norm_num [f32Size])⟩

/-- Counterexample to C3 as stated: on the empty input the program does
not run to completion — the run ends in the out-of-range panic raised by
`&result[0..5]`, not in a successful print. -/
theorem c3_empty_input_counterexample :
    asyncMain ratModel okEnv ([] : List ℚ) = RunOutcome.panic sliceOutOfRangeMsg ∧
      ¬∃ lines, asyncMain ratModel okEnv ([] : List ℚ) = RunOutcome.success lines := by
  refine ⟨by decide, ?_⟩
  rintro ⟨lines, hl⟩
  rw [show asyncMain ratModel okEnv ([] : List ℚ) = RunOutcome.panic sliceOutOfRangeMsg
    from by decide] at hl
  exact RunOutcome.noConfusion hl

/-- C3 (amended): for the empty input, the dispatch of zero workgroups
and the readback succeed and the result vector has length 0, but the
final printing step then panics when slicing `&result[0..5]`, so the
program does not run to completion. -/
theorem c3_empty_input_amended (M : FloatModel α) :
    (runPipeline M ([] : List α)).length = 0 ∧
      asyncMain M okEnv ([] : List α) = RunOutcome.panic sliceOutOfRangeMsg := by
  have hlen : (runPipeline M ([] : List α)).length = 0 := by
    rw [runPipeline_length]
    simp [yBufferSize, asU64]
  refine ⟨hlen, ?_⟩
  simp only [asyncMain, okEnv]
  rw [report_eq]
  rw [hlen]
  simp

theorem asyncMain_okEnv (M : FloatModel α) (xIn : List α) :
    asyncMain M okEnv xIn =
      match report M (runPipeline M xIn) with
      | some lines => RunOutcome.success lines
      | none => RunOutcome.panic sliceOutOfRangeMsg := by
  simp [asyncMain, okEnv]

/-- C4: on the success path the program prints exactly three lines — the
first 5 elements of the computed result vector, the expected vector of
the cosines of 0, 1, 2, 3, 4, and the length of the result vector. -/
theorem c4_success_prints_three_lines :
    (∀ {α : Type} (M : FloatModel α) (xIn : List α) (lines : List (OutputLine α)),
        asyncMain M okEnv xIn = RunOutcome.success lines →
        lines = [OutputLine.resultLine ((runPipeline M xIn).take 5),
                 OutputLine.expectedLine (expectedResult M),
                 OutputLine.lengthLine (runPipeline M xIn).length]) ∧
      expectedResult realModel =
        [Real.cos 0, Real.cos 1, Real.cos 2, Real.cos 3, Real.cos 4] := by
  constructor
  · intro α M xIn lines h
    rw [asyncMain_okEnv, report_eq] at h
    by_cases h5 : 5 ≤ (runPipeline M xIn).length
    · rw [if_pos h5] at h
      simp only [RunOutcome.success.injEq] at h
      exact h.symm
    · rw [if_neg h5] at h
      exact RunOutcome.noConfusion h
  · have hr : List.range 5 = [0, 1, 2, 3, 4] := rfl
    rw [expectedResult, hr]
    simp [realModel]

/-- Witness for C4: the theorem applied to the concrete success run on
the input [0, 1, 2, 3, 4] in the rational model. -/
theorem c4_success_prints_three_lines_witness :
    asyncMain ratModel okEnv [(0 : ℚ), 1, 2, 3, 4] =
        RunOutcome.success
          [OutputLine.resultLine [(0 : ℚ), 1, 2, 3, 4],
           OutputLine.expectedLine [(0 : ℚ), 1, 2, 3, 4],
           OutputLine.lengthLine 5] ∧
      [OutputLine.resultLine [(0 : ℚ), 1, 2, 3, 4],
       OutputLine.expectedLine [(0 : ℚ), 1, 2, 3, 4],
       OutputLine.lengthLine 5] =
        [OutputLine.resultLine ((runPipeline ratModel [(0 : ℚ), 1, 2, 3, 4]).take 5),
         OutputLine.expectedLine (expectedResult ratModel),
         OutputLine.lengthLine (runPipeline ratModel [(0 : ℚ), 1, 2, 3, 4]).length] :=
  ⟨by decide,
   c4_success_prints_three_lines.1 ratModel [(0 : ℚ), 1, 2, 3, 4] _ (by decide)⟩

/-- C5: each of the three failure modes — no adapter, device-creation
failure, mapping failure after submission — ends the run in an
unrecoverable panic carrying the corresponding diagnostic message, never
in a structured error returned to a caller. -/
theorem c5_failures_panic (M : FloatModel α) (xIn : List α) (b c : Bool) :
    asyncMain M { adapterAvailable := false, deviceCreationOk := b, mappingOk := c } xIn =
        RunOutcome.panic noAdapterMsg ∧
      asyncMain M { adapterAvailable := true, deviceCreationOk := false, mappingOk := c } xIn =
        RunOutcome.panic noDeviceMsg ∧
      asyncMain M { adapterAvailable := true, deviceCreationOk := true, mappingOk := false } xIn =
        RunOutcome.panic mapFailMsg := by
  refine ⟨?_, ?_, ?_⟩ <;> simp [asyncMain]

/-- C6: the program encodes exactly one compute pass, which binds the
pipeline and the single bind group at slot 0 and dispatches once with a
grid whose x-dimension is the number of input elements and whose y and z
dimensions are 1, submits one command buffer, and the shader's workgroup
size is (1, 1, 1). -/
theorem c6_single_pass_single_dispatch (n : Nat) (h : n < 2 ^ 32) :
    submission n =
        [[{ pipelineSet := true, bindGroupSlot := 0, dispatches := [(n, 1, 1)] }]] ∧
      workgroupSize = (1, 1, 1) := by
  constructor
  · simp only [submission, encodedPasses, xWorkgroups, asU32, Nat.mod_eq_of_lt h]
  · rfl

/-- Witness for C6: the theorem applied at the program's input length 1028. -/
theorem c6_single_pass_single_dispatch_witness :
    1028 < 2 ^ 32 ∧
      (submission 1028 =
          [[{ pipelineSet := true, bindGroupSlot := 0, dispatches := [(1028, 1, 1)] }]] ∧
        workgroupSize = (1, 1, 1)) :=
  ⟨by norm_num, c6_single_pass_single_dispatch 1028 (by norm_num)⟩

/-- C7: the result read back is a function of the input alone — two runs
of the pipeline on the same input, differing in the only state not
determined by the input (the initial contents of the freshly allocated
output buffer), read back identical result vectors. -/
theorem c7_two_runs_identical (M : FloatModel α) (xIn y1 y2 : List α)
    (hlen : xIn.length < 2 ^ 32)
    (h1 : y1.length = yBufferSize xIn.length / f32Size)
    (h2 : y2.length = yBufferSize xIn.length / f32Size) :
    runPipelineFrom M xIn y1 = runPipelineFrom M xIn y2 := by
  have hnx : xWorkgroups xIn.length = xIn.length := Nat.mod_eq_of_lt hlen
  have hbytes : xIn.length * f32Size < 2 ^ 64 := by
    have h4 : f32Size = 4 := rfl
    rw [h4]; omega
  have hsize : yBufferSize xIn.length / f32Size = xIn.length := by
    unfold yBufferSize asU64
    rw [Nat.mod_eq_of_lt hbytes]
    exact Nat.mul_div_cancel xIn.length (by norm_num [f32Size])
  have hy1 : y1.length = xIn.length := by rw [h1, hsize]
  have hy2 : y2.length = xIn.length := by rw [h2, hsize]
  apply List.ext_getElem?
  intro i
  unfold runPipelineFrom
  rw [hnx]
  by_cases hi : i < xIn.length
  · rw [dispatchKernel_y_getElem? M xIn.length i _ hi (by simpa [hy1] using hi),
        dispatchKernel_y_getElem? M xIn.length i _ hi (by simpa [hy2] using hi)]
  · have hni : xIn.length ≤ i := Nat.le_of_not_lt hi
    rw [dispatchKernel_y_getElem?_untouched M xIn.length i _ hni,
        dispatchKernel_y_getElem?_untouched M xIn.length i _ hni]
    have e1 : y1[i]? = none := List.getElem?_eq_none (by omega)
    have e2 : y2[i]? = none := List.getElem?_eq_none (by omega)
    rw [e1, e2]

/-- Witness for C7: the theorem applied to the input [1, 2] with two
different initial output-buffer contents. -/
theorem c7_two_runs_identical_witness :
    ([(1 : ℚ), 2].length < 2 ^ 32 ∧
      [(5 : ℚ), 6].length = yBufferSize [(1 : ℚ), 2].length / f32Size ∧
      [(7 : ℚ), 8].length = yBufferSize [(1 : ℚ), 2].length / f32Size) ∧
      runPipelineFrom ratModel [(1 : ℚ), 2] [(5 : ℚ), 6] =
        runPipelineFrom ratModel [(1 : ℚ), 2] [(7 : ℚ), 8] :=
  ⟨⟨by norm_num, by decide, by decide⟩,
   c7_two_runs_identical ratModel [(1 : ℚ), 2] [(5 : ℚ), 6] [(7 : ℚ), 8]
     (by norm_num) (by decide) (by decide)⟩

/-- C8: the input is immutable once uploaded — the dispatch leaves the
contents of the input buffer unchanged, the shader declares binding 0
read-only (`var<storage, read>`), and the input buffer is created with
storage-only usage. -/
theorem c8_input_buffer_immutable (M : FloatModel α) (nx : Nat) (mem : GpuMemory α) :
    (dispatchKernel M nx mem).x = mem.x ∧
      xBindingAccess = AccessMode.read ∧
      xBufferUsage = { storage := true, mapRead := false } :=
  ⟨dispatchKernel_x M nx mem, rfl, rfl⟩

/-- C9: when the input (hence the result) has fewer than 5 elements the
final reporting step panics at `&result[0..5]`; the run reaches a
successful print exactly when the input has at least 5 elements. -/
theorem c9_short_input_panics_at_print (M : FloatModel α) (xIn : List α) :
    (xIn.length < 5 → asyncMain M okEnv xIn = RunOutcome.panic sliceOutOfRangeMsg) ∧
      (5 ≤ xIn.length → xIn.length * f32Size < 2 ^ 64 →
        ∃ lines, asyncMain M okEnv xIn = RunOutcome.success lines) := by
  constructor
  · intro h5
    have hbytes : xIn.length * f32Size < 2 ^ 64 := by
      have h4 : f32Size = 4 := rfl
      rw [h4]; omega
    have hlen := runPipeline_length_eq M xIn hbytes
    rw [asyncMain_okEnv, report_eq, hlen, if_neg (by omega)]
  · intro h5 hbytes
    have hlen := runPipeline_length_eq M xIn hbytes
    rw [asyncMain_okEnv, report_eq, hlen, if_pos h5]
    exact ⟨_, rfl⟩

/-- Witness for C9: the theorem applied to the 3-element input (panic)
and to the 5-element input (success). -/
theorem c9_short_input_panics_at_print_witness :
    ([(1 : ℚ), 2, 3].length < 5 ∧
      asyncMain ratModel okEnv [(1 : ℚ), 2, 3] = RunOutcome.panic sliceOutOfRangeMsg) ∧
      (5 ≤ [(9 : ℚ), 8, 7, 6, 5].length ∧
        ∃ lines, asyncMain ratModel okEnv [(9 : ℚ), 8, 7, 6, 5] = RunOutcome.success lines) :=
  ⟨⟨by norm_num,
    (c9_short_input_panics_at_print ratModel [(1 : ℚ), 2, 3]).1 (by norm_num)⟩,
   ⟨by norm_num,
    (c9_short_input_panics_at_print ratModel [(9 : ℚ), 8, 7, 6, 5]).2
      (by norm_num) (by norm_num [f32Size])⟩⟩

/-- C10: the printed expected-result line is always the cosines of
0, 1, 2, 3, 4, independent of the input vector; it agrees with the first
five computed results on the program's hardcoded input because that
input's first five elements are 0, 1, 2, 3, 4. -/
theorem c10_expected_line_fixed (M : FloatModel α) :
    (∀ (xIn : List α) (lines : List (OutputLine α)),
        asyncMain M okEnv xIn = RunOutcome.success lines →
        lines[1]? = some (OutputLine.expectedLine (expectedResult M))) ∧
      expectedResult M =
        [M.cos (M.ofNat 0), M.cos (M.ofNat 1), M.cos (M.ofNat 2),
         M.cos (M.ofNat 3), M.cos (M.ofNat 4)] ∧
      (runPipeline M (hostInput M)).take 5 = expectedResult M ∧
      (hostInput M).take 5 = [M.ofNat 0, M.ofNat 1, M.ofNat 2, M.ofNat 3, M.ofNat 4] := by
  refine ⟨?_, rfl, ?_, ?_⟩
  · intro xIn lines h
    rw [asyncMain_okEnv, report_eq] at h
    by_cases h5 : 5 ≤ (runPipeline M xIn).length
    · rw [if_pos h5] at h
      simp only [RunOutcome.success.injEq] at h
      rw [← h]
      rfl
    · rw [if_neg h5] at h
      exact RunOutcome.noConfusion h
  · have hlen1028 : (hostInput M).length = 1028 := hostInput_length M
    have hlt : (hostInput M).length < 2 ^ 32 := by rw [hlen1028]; norm_num
    have hbytes : (hostInput M).length * f32Size < 2 ^ 64 := by
      rw [hlen1028]; norm_num [f32Size]
    have hrl : (runPipeline M (hostInput M)).length = 1028 := by
      rw [runPipeline_length_eq M _ hbytes, hlen1028]
    apply List.ext_getElem?
    intro i
    by_cases hi : i < 5
    · rw [List.getElem?_take_of_lt hi]
      rw [runPipeline_getElem? M _ i (by omega) hlt]
      rw [hostInput_getD M i _ (by omega)]
      simp [expectedResult, List.getElem?_map, List.getElem?_range hi]
    · have h1 : ((runPipeline M (hostInput M)).take 5).length ≤ i := by
        rw [List.length_take, hrl]; omega
      have h2 : (expectedResult M).length ≤ i := by
        simp only [expectedResult, List.length_map, List.length_range]; omega
      rw [List.getElem?_eq_none h1, List.getElem?_eq_none h2]
  · have hmin : (5 : ℕ) ⊓ 1028 = 5 := by norm_num
    have ht : (hostInput M).take 5 = (List.range 5).map M.ofNat := by
      rw [hostInput, ← List.map_take, List.take_range, hmin]
    rw [ht]
    rfl

/-- Witness for C10: the theorem applied to the concrete success run on
the 6-element input [0, 1, 2, 3, 4, 5]. -/
theorem c10_expected_line_fixed_witness :
    asyncMain ratModel okEnv [(0 : ℚ), 1, 2, 3, 4, 5] =
        RunOutcome.success
          [OutputLine.resultLine [(0 : ℚ), 1, 2, 3, 4],
           OutputLine.expectedLine [(0 : ℚ), 1, 2, 3, 4],
           OutputLine.lengthLine 6] ∧
      [OutputLine.resultLine [(0 : ℚ), 1, 2, 3, 4],
       OutputLine.expectedLine [(0 : ℚ), 1, 2, 3, 4],
       OutputLine.lengthLine 6][1]? =
        some (OutputLine.expectedLine (expectedResult ratModel)) :=
  ⟨by decide,
   (c10_expected_line_fixed ratModel).1 [(0 : ℚ), 1, 2, 3, 4, 5] _ (by decide)⟩
